import Mathlib

/-!
Shallow embedding of `luna/gateware/usb/usb3/application/request.py`:
the SuperSpeed setup-packet decoder (`SuperSpeedSetupDecoder`), the
request-handler multiplexer (`SuperSpeedRequestHandlerMultiplexer`) and the
stall-only request handler (`StallOnlyRequestHandler`).

The hardware is fully synchronous in a single clock domain (`ss`); we embed
each component as a step function from (register state, sampled inputs) to
the next register state.  Registered outputs computed in step `n` become
visible during step `n+1`, matching the `m.d.ss` semantics of the source.
Successive synchronous assignments to the same signal override earlier ones
within a step, and `m.next` assignments override earlier `m.next`
assignments; the step functions below reproduce that ordering explicitly.
-/

namespace USB3Request

/-- Modelled from the spec: the `SetupPacket` record (defined outside the
given sources, in `luna/gateware/usb/request.py`) carries the standard
8-byte control-request layout: `request_type`, `request`, `value` in
bytes 0-3 (word 0) and `index`, `length` in bytes 4-7 (word 1).  The
`received` strobe is kept separately in the decoder state below. -/
structure SetupFields where
  request_type : Nat
  request      : Nat
  value        : Nat
  index        : Nat
  length       : Nat
deriving DecidableEq, Repr

/-- The three FSM states of `SuperSpeedSetupDecoder.elaborate`. -/
inductive DecoderState
  | waitForFirst
  | parseSecond
  | waitForValid
deriving DecidableEq, Repr

/-- Modelled from the spec: the stream interface exposes per-step `valid`,
`first`, `last` markers and a 32-bit data word; `valid` abstracts the
lane-valid condition (`valid.all()` on the sink side, `valid.any()` on the
transmit side).  `setup` is the header metadata flag (`header_in.setup`),
and `rx_good` / `rx_bad` are the out-of-band verdict strobes. -/
structure DecoderInput where
  valid   : Bool
  first   : Bool
  last    : Bool
  data    : Nat
  setup   : Bool
  rx_good : Bool
  rx_bad  : Bool
deriving DecidableEq, Repr

/-- Register state of the decoder: FSM state, the two 32-bit words of the
internal capture buffer (`packet.word_select(0/1, 32)`), the externally
visible published packet `self.packet`, and its `received` strobe. -/
structure DecoderReg where
  fsm      : DecoderState
  word0    : Nat
  word1    : Nat
  out      : SetupFields
  received : Bool
deriving DecidableEq, Repr

/-- Splitting the two captured 32-bit words into the published fields:
word 0 holds `request_type` (bits 0-7), `request` (bits 8-15) and `value`
(bits 16-31); word 1 holds `index` (bits 0-15) and `length` (bits 16-31). -/
def parseSetup (w0 w1 : Nat) : SetupFields :=
  { request_type := w0 % 2^8
    request      := w0 / 2^8 % 2^8
    value        := w0 / 2^16 % 2^16
    index        := w1 % 2^16
    length       := w1 / 2^16 % 2^16 }

/-- Reassembling a published packet into the 64 bits of the standard
control-request layout (word 0 in the low half, word 1 in the high half). -/
def setupToNat (f : SetupFields) : Nat :=
  f.request_type + 2^8 * f.request + 2^16 * f.value + 2^32 * f.index + 2^48 * f.length

/-- One synchronous step of `SuperSpeedSetupDecoder.elaborate`.

* `received` is driven to 0 every step unless the publish branch overrides it.
* `WAIT_FOR_FIRST`: on `sink.valid & sink.first & header_in.setup`, capture
  word 0 (truncated to 32 bits) and advance to `PARSE_SECOND`.
* `PARSE_SECOND`: on a valid step, capture word 1 and advance to
  `WAIT_FOR_VALID` if `last`, otherwise fall back to `WAIT_FOR_FIRST`;
  a separate `If(rx_bad)` afterwards overrides the next state back to
  `WAIT_FOR_FIRST`.
* `WAIT_FOR_VALID`: on `rx_good`, publish the buffer to `self.packet` and
  strobe `received`; a separate `If(rx_bad)` afterwards also selects
  `WAIT_FOR_FIRST` (it does not cancel the publish assignments). -/
def decoderStep (s : DecoderReg) (i : DecoderInput) : DecoderReg :=
  let s0 : DecoderReg := { s with received := false }
  match s.fsm with
  | DecoderState.waitForFirst =>
      if i.valid && i.first && i.setup then
        { s0 with word0 := i.data % 2^32, fsm := DecoderState.parseSecond }
      else s0
  | DecoderState.parseSecond =>
      let s1 :=
        if i.valid then
          if i.last then
            { s0 with word1 := i.data % 2^32, fsm := DecoderState.waitForValid }
          else
            { s0 with fsm := DecoderState.waitForFirst }
        else s0
      if i.rx_bad then { s1 with fsm := DecoderState.waitForFirst } else s1
  | DecoderState.waitForValid =>
      let s1 :=
        if i.rx_good then
          { s0 with out := parseSetup s.word0 s.word1, received := true,
                    fsm := DecoderState.waitForFirst }
        else s0
      if i.rx_bad then { s1 with fsm := DecoderState.waitForFirst } else s1

/-- Reset state of the decoder registers. -/
def decoderInit : DecoderReg :=
  { fsm := DecoderState.waitForFirst, word0 := 0, word1 := 0
    out := { request_type := 0, request := 0, value := 0, index := 0, length := 0 }
    received := false }

/-- Running the decoder over a list of per-step inputs. -/
def runDecoder (s : DecoderReg) (is : List DecoderInput) : DecoderReg :=
  is.foldl decoderStep s

/-- Modelled from the spec: `HandshakeGeneratorInterface` (defined outside the
given sources) carries the outbound handshake requests: the acknowledge
trigger `send_ack` and the reject trigger `send_stall`. -/
structure HandshakeGen where
  send_ack   : Bool
  send_stall : Bool
deriving DecidableEq, Repr

/-- Modelled from the spec: a transmit-side `SuperSpeedStreamInterface`
snapshot — per-step `valid`, `first`, `last` markers and a data word.
`valid` abstracts the lane-valid condition (`tx.valid.any()`). -/
structure TxStream where
  valid : Bool
  data  : Nat
  first : Bool
  last  : Bool
deriving DecidableEq, Repr

/-- The fan-in (handler-to-shared) half of one registered
`SuperSpeedRequestHandlerInterface`, as sampled in a single step. -/
structure HandlerOut where
  address_changed    : Bool
  new_address        : Nat
  config_changed     : Bool
  new_config         : Nat
  tx                 : TxStream
  tx_length          : Nat
  tx_sequence_number : Nat
  handshakes_out     : HandshakeGen
deriving DecidableEq, Repr

/-- The multiplexed (shared) outputs driven combinationally by
`SuperSpeedRequestHandlerMultiplexer` in a single step. -/
structure SharedOut where
  address_changed    : Bool
  new_address        : Nat
  config_changed     : Bool
  new_config         : Nat
  tx                 : TxStream
  tx_length          : Nat
  tx_sequence_number : Nat
  handshakes_out     : HandshakeGen
deriving DecidableEq, Repr

/-- `SuperSpeedRequestHandlerMultiplexer._multiplex_signals`: an `If`/`Elif`
chain over the registered interfaces in registration order.  The first
interface whose `when` signal is asserted drives the whole `multiplex`
group (abstracted by the getter `get`); if none is asserted the shared
signals keep their combinational default `d`. -/
def multiplexSignals {α : Type} (when : HandlerOut → Bool) (get : HandlerOut → α)
    (d : α) : List HandlerOut → α
  | [] => d
  | h :: rest => if when h then get h else multiplexSignals when get d rest

/-- The transmit-interface loop of the multiplexer: a sequence of parallel
`If(interface.tx.valid.any())` blocks, where the latest combinational
assignment wins.  Folding from the default gives exactly that semantics. -/
def muxTx (hs : List HandlerOut) : TxStream × Nat × Nat :=
  hs.foldl
    (fun acc h =>
      if h.tx.valid then (h.tx, h.tx_sequence_number, h.tx_length) else acc)
    ({ valid := false, data := 0, first := false, last := false }, 0, 0)

/-- The handshake-out loop of the multiplexer: a sequence of parallel
`If(send_ack | send_stall)` blocks connecting the whole handshake payload;
the latest combinational assignment wins. -/
def muxHandshakes (hs : List HandlerOut) : HandshakeGen :=
  hs.foldl
    (fun acc h =>
      if h.handshakes_out.send_ack || h.handshakes_out.send_stall
      then h.handshakes_out else acc)
    { send_ack := false, send_stall := false }

/-- The fan-in half of `SuperSpeedRequestHandlerMultiplexer.elaborate` for
one step: the address-change and configuration-change groups go through the
`If`/`Elif` priority chains, the transmit and handshake groups through the
parallel-`If` (last assignment wins) loops. -/
def muxOutputs (hs : List HandlerOut) : SharedOut :=
  let addr := multiplexSignals (fun h => h.address_changed)
      (fun h => (h.address_changed, h.new_address)) (false, 0) hs
  let cfg := multiplexSignals (fun h => h.config_changed)
      (fun h => (h.config_changed, h.new_config)) (false, 0) hs
  let tx := muxTx hs
  { address_changed    := addr.1
    new_address        := addr.2
    config_changed     := cfg.1
    new_config         := cfg.2
    tx                 := tx.1
    tx_sequence_number := tx.2.1
    tx_length          := tx.2.2
    handshakes_out     := muxHandshakes hs }

/-- Per-step inputs of `StallOnlyRequestHandler`: the broadcast event
strobes, the inbound stream validity, and the current setup packet. -/
structure StallInput where
  data_requested   : Bool
  status_requested : Bool
  rx_valid         : Bool
  setup            : SetupFields
deriving DecidableEq, Repr

/-- Modelled from the spec: `falling_edge_detected` (defined outside the
given sources, in `luna/gateware/utils`) reports a falling-edge transition
of a signal: it was asserted in the previous step and is deasserted now.
`prev` is the registered previous-step value of the signal. -/
def fallingEdge (prev cur : Bool) : Bool := prev && !cur

/-- One step of `StallOnlyRequestHandler.elaborate` for a stall predicate
`P`: returns the updated previous-validity register together with the
combinational `handshakes_out.stall` output of this step.  The stall output
is driven only inside the nested `If`s: an opportunity to stall
(`data_requested | status_requested | data_received`) and the caller's
stall condition on the current setup packet. -/
def stallStep (P : SetupFields → Bool) (prevValid : Bool) (i : StallInput) :
    Bool × Bool :=
  let opportunity := i.data_requested || i.status_requested
      || fallingEdge prevValid i.rx_valid
  let stall := if opportunity then (if P i.setup then true else false) else false
  (i.rx_valid, stall)

/-! Concrete inputs used to exercise the theorems below on closed instances. -/

/-- A first setup word arriving on the stream. -/
def inFirstWord : DecoderInput :=
  { valid := true, first := true, last := false, data := 0x80060001
    setup := true, rx_good := false, rx_bad := false }

/-- A last word arriving on the stream. -/
def inLastWord : DecoderInput :=
  { valid := true, first := false, last := true, data := 0x00400000
    setup := false, rx_good := false, rx_bad := false }

/-- An idle step carrying only the `rx_good` verdict strobe. -/
def inGood : DecoderInput :=
  { valid := false, first := false, last := false, data := 0
    setup := false, rx_good := true, rx_bad := false }

/-- An idle step carrying only the `rx_bad` verdict strobe. -/
def inBad : DecoderInput :=
  { valid := false, first := false, last := false, data := 0
    setup := false, rx_good := false, rx_bad := true }

/-- A first setup word arriving simultaneously with an `rx_bad` strobe. -/
def inFirstWordBad : DecoderInput :=
  { valid := true, first := true, last := false, data := 0x80060001
    setup := true, rx_good := false, rx_bad := true }

/-- A step carrying both verdict strobes at once. -/
def inGoodBad : DecoderInput :=
  { valid := false, first := false, last := false, data := 0
    setup := false, rx_good := true, rx_bad := true }

/-- A decoder state waiting for a verdict on a fully captured packet. -/
def regAwaitVerdict : DecoderReg :=
  { fsm := DecoderState.waitForValid, word0 := 0x80060001, word1 := 0x00400000
    out := { request_type := 0, request := 0, value := 0, index := 0, length := 0 }
    received := false }

/-- An idle transmit stream. -/
def txIdle : TxStream := { valid := false, data := 0, first := false, last := false }

/-- A handler driving every fan-in group. -/
def handlerA : HandlerOut :=
  { address_changed := true, new_address := 5, config_changed := true, new_config := 7
    tx := { valid := true, data := 17, first := true, last := false }
    tx_length := 3, tx_sequence_number := 1
    handshakes_out := { send_ack := true, send_stall := false } }

/-- A second handler driving every fan-in group with different values. -/
def handlerB : HandlerOut :=
  { address_changed := true, new_address := 9, config_changed := true, new_config := 11
    tx := { valid := true, data := 23, first := false, last := true }
    tx_length := 4, tx_sequence_number := 2
    handshakes_out := { send_ack := false, send_stall := true } }

/-- A handler driving none of its fan-in groups. -/
def handlerQuiet : HandlerOut :=
  { address_changed := false, new_address := 0, config_changed := false, new_config := 0
    tx := txIdle, tx_length := 0, tx_sequence_number := 0
    handshakes_out := { send_ack := false, send_stall := false } }

end USB3Request

namespace USB3Request

/-- The `received` output register after one step: it is driven high exactly
when the step saw `rx_good` in `WAIT_FOR_VALID`, and cleared otherwise. -/
theorem decoderStep_received (s : DecoderReg) (i : DecoderInput) :
    (decoderStep s i).received
      = (decide (s.fsm = DecoderState.waitForValid) && i.rx_good) := by
  cases h : s.fsm <;>
    simp [decoderStep, h] <;>
    split_ifs <;>
    simp_all

/-- The published packet after one step: overwritten from the capture buffer
exactly when the step saw `rx_good` in `WAIT_FOR_VALID`, unchanged otherwise. -/
theorem decoderStep_out (s : DecoderReg) (i : DecoderInput) :
    (decoderStep s i).out
      = if s.fsm = DecoderState.waitForValid ∧ i.rx_good = true
        then parseSetup s.word0 s.word1 else s.out := by
  cases h : s.fsm <;>
    simp [decoderStep, h] <;>
    split_ifs <;>
    simp_all

/-- A publishing step always returns the FSM to `WAIT_FOR_FIRST`. -/
theorem decoderStep_fsm_publish (s : DecoderReg) (i : DecoderInput)
    (h : s.fsm = DecoderState.waitForValid) (hg : i.rx_good = true) :
    (decoderStep s i).fsm = DecoderState.waitForFirst := by
  cases hb : i.rx_bad <;> simp [decoderStep, h, hg, hb]

/-- Reassembling the parse of two captured 32-bit words recovers exactly the
64-bit concatenation, word 0 in the low half and word 1 in the high half. -/
theorem setupToNat_parseSetup (w0 w1 : Nat) :
    setupToNat (parseSetup (w0 % 2^32) (w1 % 2^32))
      = w0 % 2^32 + 2^32 * (w1 % 2^32) := by
  simp only [setupToNat, parseSetup]
  omega

/-- An `If`/`Elif` chain whose condition holds nowhere leaves the shared
signals at their combinational default. -/
theorem multiplexSignals_of_none {α : Type} (when : HandlerOut → Bool)
    (get : HandlerOut → α) (d : α) (hs : List HandlerOut)
    (hnone : ∀ h ∈ hs, when h = false) :
    multiplexSignals when get d hs = d := by
  induction hs with
  | nil => rfl
  | cons h rest ih =>
      have h0 : when h = false := hnone h (List.mem_cons_self _ _)
      simpa [multiplexSignals, h0] using
        ih (fun x hx => hnone x (List.mem_cons_of_mem _ hx))

/-- In an `If`/`Elif` chain, the first interface in registration order whose
condition is asserted drives the multiplexed signals. -/
theorem multiplexSignals_firstWins {α : Type} (when : HandlerOut → Bool)
    (get : HandlerOut → α) (d : α) :
    ∀ (hs : List HandlerOut) (i : Nat) (hi : i < hs.length),
      when (hs.get ⟨i, hi⟩) = true →
      (∀ k (hk : k < hs.length), k < i → when (hs.get ⟨k, hk⟩) = false) →
      multiplexSignals when get d hs = get (hs.get ⟨i, hi⟩) := by
  intro hs
  induction hs with
  | nil => intro i hi; exact absurd hi (by simp)
  | cons h rest ih =>
      intro i hi hwhen hbefore
      cases i with
      | zero =>
          simp only [List.get] at hwhen ⊢
          simp [multiplexSignals, hwhen]
      | succ i =>
          have h0 : when h = false :=
            hbefore 0 (Nat.succ_pos _) (Nat.succ_pos _)
          simp only [List.get] at hwhen ⊢
          simp only [multiplexSignals, h0, Bool.false_eq_true, if_false]
          exact ih i (Nat.lt_of_succ_lt_succ hi) hwhen
            (fun k hk hki =>
              hbefore (k + 1) (Nat.succ_lt_succ hk) (Nat.succ_lt_succ hki))

/-- A chain of parallel `If` blocks whose condition holds nowhere leaves the
combinational signals at their incoming value. -/
theorem foldl_override_of_none {α : Type} (cond : HandlerOut → Bool)
    (out : HandlerOut → α) (hs : List HandlerOut)
    (hnone : ∀ h ∈ hs, cond h = false) (a : α) :
    hs.foldl (fun acc h => if cond h then out h else acc) a = a := by
  induction hs generalizing a with
  | nil => rfl
  | cons h rest ih =>
      have h0 : cond h = false := hnone h (List.mem_cons_self _ _)
      simpa [List.foldl, h0] using
        ih (fun x hx => hnone x (List.mem_cons_of_mem _ hx)) a

/-- In a chain of parallel `If` blocks, the last interface in registration
order whose condition is asserted determines the final value. -/
theorem foldl_override_lastWins {α : Type} (cond : HandlerOut → Bool)
    (out : HandlerOut → α) :
    ∀ (hs : List HandlerOut) (j : Nat) (hj : j < hs.length),
      cond (hs.get ⟨j, hj⟩) = true →
      (∀ k (hk : k < hs.length), j < k → cond (hs.get ⟨k, hk⟩) = false) →
      ∀ a, hs.foldl (fun acc h => if cond h then out h else acc) a
        = out (hs.get ⟨j, hj⟩) := by
  intro hs
  induction hs with
  | nil => intro j hj; exact absurd hj (by simp)
  | cons h rest ih =>
      intro j hj hcond hafter a
      cases j with
      | zero =>
          simp only [List.get] at hcond ⊢
          simp only [List.foldl, hcond, if_true]
          exact foldl_override_of_none cond out rest
            (fun x hx => by
              obtain ⟨⟨k, hk⟩, rfl⟩ := List.mem_iff_get.mp hx
              exact hafter (k + 1) (Nat.succ_lt_succ hk) (Nat.succ_pos _))
            (out h)
      | succ j =>
          simp only [List.get] at hcond ⊢
          simp only [List.foldl]
          exact ih j (Nat.lt_of_succ_lt_succ hj) hcond
            (fun k hk hjk =>
              hafter (k + 1) (Nat.succ_lt_succ hk) (Nat.succ_lt_succ hjk))
            _

end USB3Request

namespace USB3Request

/-- C1: for every input sequence in which the decoder, starting in
`WAIT_FOR_FIRST`, sees a step with the stream valid, marked first, and the
header setup flag set (capturing word 0), then a step with the stream valid
and marked last (capturing word 1), and then a step in `WAIT_FOR_VALID`
with `rx_good` asserted, the externally visible `SetupPacket` one step
after the `rx_good` step equals the two captured 32-bit words (word 0 in
the low half, word 1 in the high half), and its `received` strobe is high
for exactly that one step. -/
theorem decoder_good_sequence_publishes (s0 : DecoderReg) (i1 i2 i3 : DecoderInput)
    (h0 : s0.fsm = DecoderState.waitForFirst)
    (h1v : i1.valid = true) (h1f : i1.first = true) (h1s : i1.setup = true)
    (h2v : i2.valid = true) (h2l : i2.last = true)
    (h2w : (decoderStep (decoderStep s0 i1) i2).fsm = DecoderState.waitForValid)
    (h3 : i3.rx_good = true) :
    setupToNat (decoderStep (decoderStep (decoderStep s0 i1) i2) i3).out
        = i1.data % 2^32 + 2^32 * (i2.data % 2^32)
    ∧ (decoderStep (decoderStep (decoderStep s0 i1) i2) i3).received = true
    ∧ ∀ i4,
        (decoderStep (decoderStep (decoderStep (decoderStep s0 i1) i2) i3) i4).received
          = false := by
  have hb2 : i2.rx_bad = false := by
    cases hb : i2.rx_bad
    · rfl
    · exfalso
      simp [decoderStep, h0, h1v, h1f, h1s, h2v, h2l, hb] at h2w
  refine ⟨?_, ?_, ?_⟩
  · rw [decoderStep_out, if_pos ⟨h2w, h3⟩]
    have hw0 : (decoderStep (decoderStep s0 i1) i2).word0 = i1.data % 2^32 := by
      simp [decoderStep, h0, h1v, h1f, h1s, h2v, h2l, hb2]
    have hw1 : (decoderStep (decoderStep s0 i1) i2).word1 = i2.data % 2^32 := by
      simp [decoderStep, h0, h1v, h1f, h1s, h2v, h2l, hb2]
    rw [hw0, hw1]
    simp only [setupToNat, parseSetup]
    omega
  · rw [decoderStep_received, h2w, h3]
    rfl
  · intro i4
    rw [decoderStep_received, decoderStep_fsm_publish _ i3 h2w h3]
    simp

/-- C1 witness: a concrete good two-word sequence from reset publishes the
concatenation of the two words and strobes `received` for one step. -/
theorem decoder_good_sequence_publishes_witness :
    setupToNat (decoderStep (decoderStep (decoderStep decoderInit inFirstWord) inLastWord) inGood).out
        = inFirstWord.data % 2^32 + 2^32 * (inLastWord.data % 2^32)
    ∧ (decoderStep (decoderStep (decoderStep decoderInit inFirstWord) inLastWord) inGood).received
        = true
    ∧ (decoderStep (decoderStep (decoderStep (decoderStep decoderInit inFirstWord) inLastWord) inGood) inBad).received
        = false :=
  ⟨(decoder_good_sequence_publishes decoderInit inFirstWord inLastWord inGood
      rfl rfl rfl rfl rfl rfl (by decide) rfl).1,
   (decoder_good_sequence_publishes decoderInit inFirstWord inLastWord inGood
      rfl rfl rfl rfl rfl rfl (by decide) rfl).2.1,
   (decoder_good_sequence_publishes decoderInit inFirstWord inLastWord inGood
      rfl rfl rfl rfl rfl rfl (by decide) rfl).2.2 inBad⟩

/-- C2 counterexample: the claim fails as stated.  First, `rx_bad` asserted
while the decoder is in `WAIT_FOR_FIRST` does not keep it there: a
simultaneous valid setup first word still advances the FSM to
`PARSE_SECOND`.  Second, `rx_bad` asserted in `WAIT_FOR_VALID` together
with `rx_good` does not suppress the publish: `received` still strobes. -/
theorem decoder_bad_claim_counterexample :
    (decoderStep decoderInit inFirstWordBad).fsm = DecoderState.parseSecond
    ∧ (decoderStep regAwaitVerdict inGoodBad).received = true := by
  constructor <;> rfl

/-- C2 (amended): if `rx_bad` is asserted while the decoder is in
`PARSE_SECOND` or `WAIT_FOR_VALID` and `rx_good` is not simultaneously
asserted, or a valid word not marked last arrives while the decoder is in
`PARSE_SECOND`, then the decoder does not publish (the externally visible
`SetupPacket` is unchanged and `received` stays low) and returns to
`WAIT_FOR_FIRST`. -/
theorem decoder_bad_no_publish (s : DecoderReg) (i : DecoderInput)
    (h : (i.rx_bad = true ∧ s.fsm ≠ DecoderState.waitForFirst
            ∧ ¬(s.fsm = DecoderState.waitForValid ∧ i.rx_good = true))
         ∨ (s.fsm = DecoderState.parseSecond ∧ i.valid = true ∧ i.last = false)) :
    (decoderStep s i).out = s.out
    ∧ (decoderStep s i).received = false
    ∧ (decoderStep s i).fsm = DecoderState.waitForFirst := by
  rcases h with ⟨hb, hnf, hng⟩ | ⟨hp, hv, hl⟩
  · cases hf : s.fsm
    · exact absurd hf hnf
    · refine ⟨?_, ?_, ?_⟩ <;>
        cases hv : i.valid <;> cases hl : i.last <;>
          simp [decoderStep, hf, hb, hv, hl]
    · have hg : i.rx_good = false := by
        cases hg : i.rx_good
        · rfl
        · exact absurd ⟨hf, hg⟩ hng
      refine ⟨?_, ?_, ?_⟩ <;> simp [decoderStep, hf, hb, hg]
  · refine ⟨?_, ?_, ?_⟩ <;>
      cases hb : i.rx_bad <;> simp [decoderStep, hp, hv, hl, hb]

/-- C2 witness: a concrete `rx_bad` strobe while awaiting the verdict
leaves the published packet unchanged, keeps `received` low, and returns
the decoder to `WAIT_FOR_FIRST`. -/
theorem decoder_bad_no_publish_witness :
    (decoderStep regAwaitVerdict inBad).out = regAwaitVerdict.out
    ∧ (decoderStep regAwaitVerdict inBad).received = false
    ∧ (decoderStep regAwaitVerdict inBad).fsm = DecoderState.waitForFirst :=
  decoder_bad_no_publish regAwaitVerdict inBad
    (Or.inl ⟨rfl, by decide, by decide⟩)

/-- C3: the `received` output strobe is high in a step exactly when
`rx_good` was asserted in the immediately preceding step while the decoder
was in `WAIT_FOR_VALID`, and a strobing step is always followed by a step
with `received` low (the publish returns the FSM to `WAIT_FOR_FIRST`, so no
immediate re-trigger is possible). -/
theorem decoder_received_strobe (s : DecoderReg) (i : DecoderInput) :
    ((decoderStep s i).received = true
      ↔ (s.fsm = DecoderState.waitForValid ∧ i.rx_good = true))
    ∧ ((decoderStep s i).received = true →
        ∀ j, (decoderStep (decoderStep s i) j).received = false) := by
  constructor
  · rw [decoderStep_received]
    cases hg : i.rx_good <;> simp [hg]
  · intro hr j
    rw [decoderStep_received] at hr ⊢
    have hf : s.fsm = DecoderState.waitForValid := by
      cases hf : s.fsm
      · simp [hf] at hr
      · simp [hf] at hr
      · rfl
    have hg : i.rx_good = true := by simp [hf] at hr; exact hr
    rw [decoderStep_fsm_publish s i hf hg]
    simp

/-- C3 witness: after a concrete publish the strobe is high, and it is low
again on the very next step. -/
theorem decoder_received_strobe_witness :
    (regAwaitVerdict.fsm = DecoderState.waitForValid ∧ inGood.rx_good = true)
    ∧ (decoderStep (decoderStep regAwaitVerdict inGood) inGood).received = false :=
  ⟨(decoder_received_strobe regAwaitVerdict inGood).1.mp (by decide),
   (decoder_received_strobe regAwaitVerdict inGood).2 (by decide) inGood⟩

/-- C8: if `rx_good` and `rx_bad` are asserted in the same step while the
decoder is in `WAIT_FOR_VALID`, the buffered packet is nevertheless
published, `received` is strobed for the following step, and the decoder
returns to `WAIT_FOR_FIRST`. -/
theorem decoder_good_and_bad_still_publishes (s : DecoderReg) (i : DecoderInput)
    (hf : s.fsm = DecoderState.waitForValid)
    (hg : i.rx_good = true) (hb : i.rx_bad = true) :
    (decoderStep s i).out = parseSetup s.word0 s.word1
    ∧ (decoderStep s i).received = true
    ∧ (decoderStep s i).fsm = DecoderState.waitForFirst := by
  refine ⟨?_, ?_, ?_⟩ <;> simp [decoderStep, hf, hg, hb]

/-- C8 witness: a concrete simultaneous good/bad verdict still publishes. -/
theorem decoder_good_and_bad_still_publishes_witness :
    (decoderStep regAwaitVerdict inGoodBad).out
        = parseSetup regAwaitVerdict.word0 regAwaitVerdict.word1
    ∧ (decoderStep regAwaitVerdict inGoodBad).received = true
    ∧ (decoderStep regAwaitVerdict inGoodBad).fsm = DecoderState.waitForFirst :=
  decoder_good_and_bad_still_publishes regAwaitVerdict inGoodBad rfl rfl rfl

/-- C10: in every step that is not a publish (`WAIT_FOR_VALID` with
`rx_good`), all fields of the externally visible `SetupPacket` other than
the `received` strobe are unchanged; in particular capturing words into the
internal buffer never alters the published fields. -/
theorem decoder_out_frame (s : DecoderReg) (i : DecoderInput)
    (h : ¬(s.fsm = DecoderState.waitForValid ∧ i.rx_good = true)) :
    (decoderStep s i).out = s.out := by
  rw [decoderStep_out, if_neg h]

/-- C10 witness: a concrete capturing step leaves the published fields
untouched. -/
theorem decoder_out_frame_witness :
    (decoderStep decoderInit inFirstWord).out = decoderInit.out :=
  decoder_out_frame decoderInit inFirstWord (by decide)

end USB3Request

namespace USB3Request

/-- C4: for the multiplexer with any list of registered interfaces, in every
step where handlers at registration indices `i < j` both assert
`address_changed` (and likewise `config_changed`), the shared `new_address`
(resp. `new_config`) output equals handler `i`'s value: the first handler
in registration order whose trigger is asserted wins and later handlers are
not considered that step. -/
theorem mux_priority_firstWins (hs : List HandlerOut) (i j : Nat)
    (hi : i < hs.length) (hj : j < hs.length) (hij : i < j) :
    (((hs.get ⟨i, hi⟩).address_changed = true) →
      ((hs.get ⟨j, hj⟩).address_changed = true) →
      (∀ k (hk : k < hs.length), k < i → (hs.get ⟨k, hk⟩).address_changed = false) →
      (muxOutputs hs).address_changed = true
        ∧ (muxOutputs hs).new_address = (hs.get ⟨i, hi⟩).new_address)
    ∧ (((hs.get ⟨i, hi⟩).config_changed = true) →
      ((hs.get ⟨j, hj⟩).config_changed = true) →
      (∀ k (hk : k < hs.length), k < i → (hs.get ⟨k, hk⟩).config_changed = false) →
      (muxOutputs hs).config_changed = true
        ∧ (muxOutputs hs).new_config = (hs.get ⟨i, hi⟩).new_config) := by
  constructor
  · intro ha _ hbefore
    have hmux := multiplexSignals_firstWins (fun h => h.address_changed)
      (fun h => (h.address_changed, h.new_address)) (false, 0) hs i hi ha hbefore
    constructor
    · show (multiplexSignals (fun h => h.address_changed)
        (fun h => (h.address_changed, h.new_address)) (false, 0) hs).1 = true
      rw [hmux]
      exact ha
    · show (multiplexSignals (fun h => h.address_changed)
        (fun h => (h.address_changed, h.new_address)) (false, 0) hs).2 = _
      rw [hmux]
  · intro hc _ hbefore
    have hmux := multiplexSignals_firstWins (fun h => h.config_changed)
      (fun h => (h.config_changed, h.new_config)) (false, 0) hs i hi hc hbefore
    constructor
    · show (multiplexSignals (fun h => h.config_changed)
        (fun h => (h.config_changed, h.new_config)) (false, 0) hs).1 = true
      rw [hmux]
      exact hc
    · show (multiplexSignals (fun h => h.config_changed)
        (fun h => (h.config_changed, h.new_config)) (false, 0) hs).2 = _
      rw [hmux]

/-- C4 witness: with two concrete handlers both asserting address and
configuration changes, the shared outputs carry handler 0's values. -/
theorem mux_priority_firstWins_witness :
    ((muxOutputs [handlerA, handlerB]).address_changed = true
      ∧ (muxOutputs [handlerA, handlerB]).new_address
          = ([handlerA, handlerB].get ⟨0, by decide⟩).new_address)
    ∧ ((muxOutputs [handlerA, handlerB]).config_changed = true
      ∧ (muxOutputs [handlerA, handlerB]).new_config
          = ([handlerA, handlerB].get ⟨0, by decide⟩).new_config) :=
  ⟨(mux_priority_firstWins [handlerA, handlerB] 0 1 (by decide) (by decide)
      (by decide)).1 (by decide) (by decide)
      (fun k _ hk => absurd hk (Nat.not_lt_zero k)),
   (mux_priority_firstWins [handlerA, handlerB] 0 1 (by decide) (by decide)
      (by decide)).2 (by decide) (by decide)
      (fun k _ hk => absurd hk (Nat.not_lt_zero k))⟩

/-- C5: for the multiplexer with any list of registered interfaces, in every
step where handlers at registration indices `i < j` both assert a
handshake-out trigger (`send_ack` or `send_stall`), the entire shared
`handshakes_out` payload equals handler `j`'s payload: any asserting
handler is routed through, and among simultaneous asserters the handler
last in registration order determines the final value. -/
theorem mux_handshake_lastWins (hs : List HandlerOut) (i j : Nat)
    (hi : i < hs.length) (hj : j < hs.length) (hij : i < j)
    (hai : ((hs.get ⟨i, hi⟩).handshakes_out.send_ack
        || (hs.get ⟨i, hi⟩).handshakes_out.send_stall) = true)
    (haj : ((hs.get ⟨j, hj⟩).handshakes_out.send_ack
        || (hs.get ⟨j, hj⟩).handshakes_out.send_stall) = true)
    (hafter : ∀ k (hk : k < hs.length), j < k →
        ((hs.get ⟨k, hk⟩).handshakes_out.send_ack
          || (hs.get ⟨k, hk⟩).handshakes_out.send_stall) = false) :
    (muxOutputs hs).handshakes_out = (hs.get ⟨j, hj⟩).handshakes_out := by
  show muxHandshakes hs = _
  exact foldl_override_lastWins
    (fun h => h.handshakes_out.send_ack || h.handshakes_out.send_stall)
    (fun h => h.handshakes_out) hs j hj haj hafter
    { send_ack := false, send_stall := false }

/-- C5 witness: with two concrete handlers both requesting a handshake, the
shared payload is handler 1's payload. -/
theorem mux_handshake_lastWins_witness :
    (muxOutputs [handlerA, handlerB]).handshakes_out
      = ([handlerA, handlerB].get ⟨1, by decide⟩).handshakes_out :=
  mux_handshake_lastWins [handlerA, handlerB] 0 1 (by decide) (by decide)
    (by decide) (by decide) (by decide)
    (fun k hk h1k => absurd (Nat.lt_of_lt_of_le h1k (Nat.lt_succ_iff.mp hk))
      (Nat.lt_irrefl 1))

/-- C6: for the multiplexer with any list of registered interfaces, in every
step each handler whose `tx.valid` is asserted drives the shared `tx`
stream, `tx_length` and `tx_sequence_number, and when several handlers
assert `tx.valid` simultaneously the handler evaluated last in registration
order determines the final shared values: if handler `j` asserts `tx.valid`
and no later handler does, the shared transmit signals are handler `j`'s. -/
theorem mux_tx_lastWins (hs : List HandlerOut) (j : Nat) (hj : j < hs.length)
    (hvalid : (hs.get ⟨j, hj⟩).tx.valid = true)
    (hafter : ∀ k (hk : k < hs.length), j < k → (hs.get ⟨k, hk⟩).tx.valid = false) :
    (muxOutputs hs).tx = (hs.get ⟨j, hj⟩).tx
    ∧ (muxOutputs hs).tx_sequence_number = (hs.get ⟨j, hj⟩).tx_sequence_number
    ∧ (muxOutputs hs).tx_length = (hs.get ⟨j, hj⟩).tx_length := by
  have hmux := foldl_override_lastWins (fun h => h.tx.valid)
    (fun h => (h.tx, h.tx_sequence_number, h.tx_length)) hs j hj hvalid hafter
    ({ valid := false, data := 0, first := false, last := false }, 0, 0)
  refine ⟨?_, ?_, ?_⟩
  · show (muxTx hs).1 = _
    rw [show muxTx hs = _ from hmux]
  · show (muxTx hs).2.1 = _
    rw [show muxTx hs = _ from hmux]
  · show (muxTx hs).2.2 = _
    rw [show muxTx hs = _ from hmux]

/-- C6 witness: with two concrete handlers both driving valid transmit
streams, the shared transmit signals are handler 1's. -/
theorem mux_tx_lastWins_witness :
    (muxOutputs [handlerA, handlerB]).tx = ([handlerA, handlerB].get ⟨1, by decide⟩).tx
    ∧ (muxOutputs [handlerA, handlerB]).tx_sequence_number
        = ([handlerA, handlerB].get ⟨1, by decide⟩).tx_sequence_number
    ∧ (muxOutputs [handlerA, handlerB]).tx_length
        = ([handlerA, handlerB].get ⟨1, by decide⟩).tx_length :=
  mux_tx_lastWins [handlerA, handlerB] 1 (by decide) (by decide)
    (fun k hk h1k => absurd (Nat.lt_of_lt_of_le h1k (Nat.lt_succ_iff.mp hk))
      (Nat.lt_irrefl 1))

/-- C9: for the multiplexer with any list of registered interfaces, in every
step where no registered handler asserts the trigger of a fan-in group, the
corresponding shared outputs are deasserted: `address_changed`,
`config_changed`, the shared transmit validity, and the shared
`handshakes_out` triggers are all low when no handler drives them. -/
theorem mux_idle_outputs (hs : List HandlerOut) :
    ((∀ h ∈ hs, h.address_changed = false) →
      (muxOutputs hs).address_changed = false)
    ∧ ((∀ h ∈ hs, h.config_changed = false) →
      (muxOutputs hs).config_changed = false)
    ∧ ((∀ h ∈ hs, h.tx.valid = false) → (muxOutputs hs).tx.valid = false)
    ∧ ((∀ h ∈ hs, h.handshakes_out.send_ack = false
          ∧ h.handshakes_out.send_stall = false) →
      (muxOutputs hs).handshakes_out.send_ack = false
        ∧ (muxOutputs hs).handshakes_out.send_stall = false) := by
  refine ⟨?_, ?_, ?_, ?_⟩
  · intro hnone
    show (multiplexSignals (fun h => h.address_changed)
      (fun h => (h.address_changed, h.new_address)) (false, 0) hs).1 = false
    rw [multiplexSignals_of_none _ _ _ hs hnone]
  · intro hnone
    show (multiplexSignals (fun h => h.config_changed)
      (fun h => (h.config_changed, h.new_config)) (false, 0) hs).1 = false
    rw [multiplexSignals_of_none _ _ _ hs hnone]
  · intro hnone
    show (muxTx hs).1.valid = false
    rw [show muxTx hs = _ from foldl_override_of_none (fun h => h.tx.valid)
      (fun h => (h.tx, h.tx_sequence_number, h.tx_length)) hs hnone
      ({ valid := false, data := 0, first := false, last := false }, 0, 0)]
  · intro hnone
    have hnone' : ∀ h ∈ hs,
        (h.handshakes_out.send_ack || h.handshakes_out.send_stall) = false := by
      intro h hh
      rw [(hnone h hh).1, (hnone h hh).2]
      rfl
    have : muxHandshakes hs = { send_ack := false, send_stall := false } :=
      foldl_override_of_none
        (fun h => h.handshakes_out.send_ack || h.handshakes_out.send_stall)
        (fun h => h.handshakes_out) hs hnone'
        { send_ack := false, send_stall := false }
    constructor
    · show (muxHandshakes hs).send_ack = false
      rw [this]
    · show (muxHandshakes hs).send_stall = false
      rw [this]

/-- C9 witness: a concrete quiet handler list leaves every shared fan-in
trigger deasserted. -/
theorem mux_idle_outputs_witness :
    (muxOutputs [handlerQuiet]).address_changed = false
    ∧ (muxOutputs [handlerQuiet]).config_changed = false
    ∧ (muxOutputs [handlerQuiet]).tx.valid = false
    ∧ (muxOutputs [handlerQuiet]).handshakes_out.send_ack = false
    ∧ (muxOutputs [handlerQuiet]).handshakes_out.send_stall = false := by
  have h := mux_idle_outputs [handlerQuiet]
  refine ⟨h.1 ?_, h.2.1 ?_, h.2.2.1 ?_, (h.2.2.2 ?_).1, (h.2.2.2 ?_).2⟩ <;>
    intro x hx <;> simp at hx <;> rw [hx] <;> decide

/-- C7: for `StallOnlyRequestHandler` with any stall predicate `P`, over two
consecutive steps the outbound stall signal of the second step is asserted
if and only if `P` evaluates true on the current setup packet and at least
one of `data_requested`, `status_requested`, or a falling edge of the
inbound stream validity (valid in the previous step, not valid now) holds
in that same step. -/
theorem stall_iff_condition_and_opportunity (P : SetupFields → Bool)
    (prev0 : Bool) (i1 i2 : StallInput) :
    (stallStep P (stallStep P prev0 i1).1 i2).2 = true
      ↔ (P i2.setup = true
          ∧ (i2.data_requested = true ∨ i2.status_requested = true
              ∨ (i1.rx_valid = true ∧ i2.rx_valid = false))) := by
  cases hd : i2.data_requested <;> cases hs : i2.status_requested <;>
    cases h1 : i1.rx_valid <;> cases h2 : i2.rx_valid <;>
      cases hp : P i2.setup <;>
        simp [stallStep, fallingEdge, hd, hs, h1, h2, hp]

end USB3Request
